import Mathlib

/-!
# Verification of the expo-kokoro-onnx audio pipeline

Shallow embedding of the pure computational core of `kokoro/kokoroOnnx.ts`
(the `KokoroOnnx` class): the character tokenizer, the token-count clamp and
style-blob slicing done in `generateAudio`, the inference-output validation
check, and the float-to-PCM WAV encoder `_floatArrayToWav`.

Modelling conventions:
* JavaScript strings are modelled as `List Char`; `text.toLowerCase()` is
  modelled per-character with `Char.toLower` (the vocabulary is pure ASCII,
  so the simple case mapping is the relevant one).
* JavaScript numbers carrying audio samples are modelled as exact rationals
  (`ℚ`); every concrete sample appearing in the claims (±2.0, ±1.0, 0.5,
  0.0) is exactly representable in binary floating point and the products
  with 32767 are exact, so the rational model agrees with the float
  computation on all inputs considered.
* Byte buffers are `List Nat` with every element < 256; `DataView`
  little-endian writes become the `u16le` / `u32le` helpers (which take the
  value mod 2^16 / 2^32, exactly as `setUint16` / `setUint32` do).
* `Array.prototype.slice(a, b)` / `TypedArray.slice(a, b)` for
  `0 ≤ a ≤ b` is `(l.drop a).take (b - a)`: both silently clamp to the
  buffer bounds and never fail.
-/

/-- Constant `STYLE_DIM = 256` from kokoroOnnx.ts. -/
def STYLE_DIM : Nat := 256

/-- Constant `SAMPLE_RATE = 24000` from kokoroOnnx.ts. -/
def SAMPLE_RATE : Nat := 24000

/-- The `VOCAB` object of kokoroOnnx.ts: symbol → token id, `none` when the
symbol has no mapping (`VOCAB[char] === undefined`). -/
def VOCAB : Char → Option Nat
  | ' ' => some 6 | ',' => some 2 | '.' => some 3 | '!' => some 4 | '?' => some 5
  | 'a' => some 33 | 'b' => some 34 | 'c' => some 35 | 'd' => some 36
  | 'e' => some 37 | 'f' => some 38 | 'g' => some 39 | 'h' => some 40
  | 'i' => some 41 | 'j' => some 42 | 'k' => some 43 | 'l' => some 44
  | 'm' => some 45 | 'n' => some 46 | 'o' => some 47 | 'p' => some 48
  | 'q' => some 49 | 'r' => some 50 | 's' => some 51 | 't' => some 52
  | 'u' => some 53 | 'v' => some 54 | 'w' => some 55 | 'x' => some 56
  | 'y' => some 57 | 'z' => some 58
  | _ => none

/-- `tokenize(text)` of kokoroOnnx.ts, mirroring the imperative loop: push
the start sentinel 0, then for each character of the lower-cased text push
its `VOCAB` id when defined, then push the end sentinel 0. -/
def tokenize (text : List Char) : List Nat :=
  let start : List Nat := [0]
  let body := (text.map Char.toLower).foldl
    (fun acc c => match VOCAB c with | some t => acc ++ [t] | none => acc) start
  body ++ [0]

/-- `numTokens = Math.min(Math.max(tokens.length - 2, 0), 509)` computed in
`generateAudio` before indexing the style blob (JS arithmetic on signed
numbers, hence `ℤ`). -/
def numTokens (tokens : List Nat) : ℤ :=
  min (max ((tokens.length : ℤ) - 2) 0) 509

/-- The style lookup of `generateAudio`:
`offset = numTokens * STYLE_DIM; styleData = voiceData.slice(offset, offset + STYLE_DIM)`.
JS `slice` clamps both ends to the buffer, which is exactly drop-then-take. -/
def styleSlice (voiceData : List ℚ) (tokenCount : Nat) : List ℚ :=
  (voiceData.drop (tokenCount * STYLE_DIM)).take STYLE_DIM

/-- The shape `[1, tokens.length]` passed to the `input_ids` tensor
constructor in `generateAudio` (the full, uncapped token list is used). -/
def inputIdsShape (text : List Char) : List Nat :=
  [1, (tokenize text).length]

/-- One named inference output (`outputs['waveform']`); `data := none`
models a null/undefined `data` payload. -/
structure TensorOutput where
  data : Option (List ℚ)
deriving DecidableEq

/-- Property lookup `outputs[name]` on the engine response object,
`none` when the property is absent. -/
def lookupOutput (outs : List (String × TensorOutput)) (name : String) :
    Option TensorOutput :=
  (outs.find? (fun p => p.1 = name)).map Prod.snd

/-- The validation gate of `generateAudio` (lines 250–257):
`if (!outputs || !outputs['waveform'] || !outputs['waveform'].data) throw`.
An absent response, a missing `waveform` property, and a null `data` are all
falsy and throw; a present `data` array — *including an empty one, which is
truthy in JS* — passes and its value is returned as the waveform. -/
def extractWaveform (outputs : Option (List (String × TensorOutput))) :
    Except String (List ℚ) :=
  match outputs with
  | none => .error "Invalid output from model inference"
  | some outs =>
    match lookupOutput outs "waveform" with
    | none => .error "Invalid output from model inference"
    | some t =>
      match t.data with
      | none => .error "Invalid output from model inference"
      | some w => .ok w

/-- Per-sample PCM conversion of `_floatArrayToWav`:
`Math.max(-32768, Math.min(32767, Math.floor(floatArray[i] * 32767)))`. -/
def pcmOfSample (s : ℚ) : ℤ :=
  max (-32768) (min 32767 ⌊s * 32767⌋)

/-- A `setUint16(_, n, true)` write: 2 little-endian bytes of `n` mod 2^16. -/
def u16le (n : Nat) : List Nat :=
  [n % 256, n / 256 % 256]

/-- A `setUint32(_, n, true)` write: 4 little-endian bytes of `n` mod 2^32. -/
def u32le (n : Nat) : List Nat :=
  [n % 256, n / 256 % 256, n / 65536 % 256, n / 16777216 % 256]

/-- A `setInt16(_, v, true)` write: the two bytes of the 16-bit
two's-complement representation of `v`, little-endian. -/
def int16le (v : ℤ) : List Nat :=
  u16le (v % 65536).toNat

/-- `_floatArrayToWav(floatArray, sampleRate)` of kokoroOnnx.ts. The
`DataView` writes fill the buffer contiguously from offset 0 through
`44 + 2*numSamples`, so the sequence of writes is modelled as the
concatenation of the written byte groups in source order. -/
def _floatArrayToWav (floatArray : List ℚ) (sampleRate : Nat) : List Nat :=
  let int16Array := floatArray.map pcmOfSample
  let dataLength := int16Array.length * 2
  [82, 73, 70, 70]                 -- "RIFF"
  ++ u32le (36 + dataLength)       -- chunk size
  ++ [87, 65, 86, 69]              -- "WAVE"
  ++ [102, 109, 116, 32]           -- "fmt "
  ++ u32le 16                      -- subchunk size
  ++ u16le 1                       -- audio format (PCM)
  ++ u16le 1                       -- number of channels
  ++ u32le sampleRate              -- sample rate
  ++ u32le (sampleRate * 2)        -- byte rate
  ++ u16le 2                       -- block align
  ++ u16le 16                      -- bits per sample
  ++ [100, 97, 116, 97]            -- "data"
  ++ u32le dataLength              -- subchunk size
  ++ int16Array.flatMap int16le    -- audio data

/-- Little-endian decoding of a byte group, used to read a header field
back out of the encoded buffer. -/
def leNat (bs : List Nat) : Nat :=
  bs.foldr (fun b acc => b + 256 * acc) 0

/-- Read the `len`-byte little-endian field at byte offset `off`. -/
def wavField (w : List Nat) (off len : Nat) : Nat :=
  leNat ((w.drop off).take len)

/-! ## Helper lemmas -/

/-- The tokenizer loop is the filterMap of the vocabulary lookup over the
lower-cased character sequence. -/
theorem tokenize_foldl (cs : List Char) (acc : List Nat) :
    cs.foldl (fun acc c => match VOCAB c with | some t => acc ++ [t] | none => acc) acc
      = acc ++ cs.filterMap VOCAB := by
  induction cs generalizing acc with
  | nil => simp
  | cons c cs ih =>
    cases h : VOCAB c with
    | none => simp [List.foldl_cons, h, ih, List.filterMap_cons]
    | some t => simp [List.foldl_cons, h, ih, List.filterMap_cons]

/-- Closed form of `tokenize`: sentinel, mapped ids in order, sentinel. -/
theorem tokenize_closed_form (text : List Char) :
    tokenize text = 0 :: ((text.map Char.toLower).filterMap VOCAB ++ [0]) := by
  simp [tokenize, tokenize_foldl]

/-- Each PCM sample contributes exactly two bytes. -/
theorem length_flatMap_int16le (l : List ℤ) :
    (l.flatMap int16le).length = 2 * l.length := by
  induction l with
  | nil => rfl
  | cons a l ih => simp [int16le, u16le, ih]; ring

/-- `_floatArrayToWav` written out byte by byte: the 44 header bytes in cons
form followed by the PCM payload. -/
theorem wav_normal_form (fa : List ℚ) (r : Nat) :
    _floatArrayToWav fa r =
      82 :: 73 :: 70 :: 70 ::
      ((36 + fa.length * 2) % 256) :: ((36 + fa.length * 2) / 256 % 256) ::
      ((36 + fa.length * 2) / 65536 % 256) :: ((36 + fa.length * 2) / 16777216 % 256) ::
      87 :: 65 :: 86 :: 69 ::
      102 :: 109 :: 116 :: 32 ::
      16 :: 0 :: 0 :: 0 ::
      1 :: 0 ::
      1 :: 0 ::
      (r % 256) :: (r / 256 % 256) :: (r / 65536 % 256) :: (r / 16777216 % 256) ::
      ((r * 2) % 256) :: ((r * 2) / 256 % 256) ::
      ((r * 2) / 65536 % 256) :: ((r * 2) / 16777216 % 256) ::
      2 :: 0 ::
      16 :: 0 ::
      100 :: 97 :: 116 :: 97 ::
      ((fa.length * 2) % 256) :: ((fa.length * 2) / 256 % 256) ::
      ((fa.length * 2) / 65536 % 256) :: ((fa.length * 2) / 16777216 % 256) ::
      (fa.map pcmOfSample).flatMap int16le := by
  simp [_floatArrayToWav, u32le, u16le]

/-! ## Claim theorems -/

/-- The clamp written the way the spec states it:
`clamp(floor(s * 32767), -32768, 32767)`. -/
def pcmClampSpec (s : ℚ) : ℤ :=
  min (max ⌊s * 32767⌋ (-32768)) 32767

/-- C2: for every sample `s`, the 16-bit PCM value the encoder emits equals
`clamp(floor(s * 32767), -32768, 32767)`; in particular 2.0 maps to 32767,
-2.0 maps to -32768, and 0.0 maps to 0. -/
theorem pcm_matches_spec_clamp :
    (∀ s : ℚ, pcmOfSample s = pcmClampSpec s) ∧
    pcmOfSample 2 = 32767 ∧ pcmOfSample (-2) = -32768 ∧ pcmOfSample 0 = 0 := by
  refine ⟨fun s => ?_, by norm_num [pcmOfSample], by norm_num [pcmOfSample],
    by norm_num [pcmOfSample]⟩
  unfold pcmOfSample pcmClampSpec
  omega

/-- C5: `tokenize` lower-cases each symbol, emits the vocabulary id of each
mapped symbol in input order, and skips unmapped symbols; with the table
mapping h to 40, i to 41, and the period to 3, `tokenize "Hi."` is
`[0, 40, 41, 3, 0]`. -/
theorem tokenize_maps_in_order :
    (∀ text : List Char,
      tokenize text = 0 :: ((text.map Char.toLower).filterMap VOCAB ++ [0])) ∧
    tokenize ['H', 'i', '.'] = [0, 40, 41, 3, 0] :=
  ⟨tokenize_closed_form, by decide⟩

/-- C6: `generateAudio` computes `numTokens = min(max(len(tokens) - 2, 0), 509)`
before indexing the style blob, so the count is between 0 and 509 for any
tokenizer output; for `[0, 40, 41, 3, 0]` the count is 3. -/
theorem numTokens_clamped :
    (∀ text : List Char,
      0 ≤ numTokens (tokenize text) ∧ numTokens (tokenize text) ≤ 509) ∧
    numTokens [0, 40, 41, 3, 0] = 3 := by
  refine ⟨fun text => ?_, by decide⟩
  unfold numTokens
  omega

/-- C4: every tokenizer output starts and ends with the sentinel 0; the
empty string tokenizes to exactly `[0, 0]`, and so does every string all of
whose (lower-cased) symbols lack a vocabulary mapping. -/
theorem tokenize_sentinels :
    (∀ text : List Char,
      (tokenize text).head? = some 0 ∧ (tokenize text).getLast? = some 0) ∧
    tokenize [] = [0, 0] ∧
    (∀ text : List Char,
      (∀ c ∈ text.map Char.toLower, VOCAB c = none) → tokenize text = [0, 0]) := by
  refine ⟨fun text => ⟨?_, ?_⟩, by decide, fun text h => ?_⟩
  · rw [tokenize_closed_form]
    rfl
  · rw [tokenize_closed_form]
    rw [show (0 : Nat) :: ((text.map Char.toLower).filterMap VOCAB ++ [0])
        = (0 :: (text.map Char.toLower).filterMap VOCAB) ++ [0] from rfl]
    exact List.getLast?_concat _
  · rw [tokenize_closed_form, List.filterMap_eq_nil_iff.mpr h]
    rfl

/-- Witness for C4: the string "@#" consists solely of unmapped symbols and
tokenizes to `[0, 0]`. -/
theorem tokenize_sentinels_witness :
    (∀ c ∈ ['@', '#'].map Char.toLower, VOCAB c = none) ∧
    tokenize ['@', '#'] = [0, 0] :=
  ⟨by decide, tokenize_sentinels.2.2 ['@', '#'] (by decide)⟩

/-- C7: when `t * 256 + 256` does not exceed the blob length, the style
lookup returns exactly the 256 contiguous floats of the blob starting at
offset `t * 256`: the result has length 256 and its i-th element is the
blob's element at position `t * 256 + i`. -/
theorem styleSlice_in_range (voiceData : List ℚ) (t : Nat)
    (h : t * 256 + 256 ≤ voiceData.length) :
    (styleSlice voiceData t).length = 256 ∧
    ∀ i, i < 256 → (styleSlice voiceData t)[i]? = voiceData[t * 256 + i]? := by
  constructor
  · simp [styleSlice, STYLE_DIM]
    omega
  · intro i hi
    simp [styleSlice, STYLE_DIM, List.getElem?_take, hi, List.getElem?_drop]

/-- Witness for C7: a 512-float blob holds frames for token counts 0 and 1;
at token count 1 the slice is the 256 floats at positions 256 through 511. -/
theorem styleSlice_in_range_witness :
    (styleSlice (List.replicate 512 (0 : ℚ)) 1).length = 256 ∧
    ∀ i, i < 256 →
      (styleSlice (List.replicate 512 (0 : ℚ)) 1)[i]?
        = (List.replicate 512 (0 : ℚ))[1 * 256 + i]? :=
  styleSlice_in_range (List.replicate 512 (0 : ℚ)) 1
    (by rw [List.length_replicate])

/-- Counterexample to C8: a blob of 256 floats holds only the frame for
token count 0; at token count 1 the requested window `[256, 512)` exceeds
the blob, yet the lookup does not fail — the JS `slice` clamps to the
buffer and `generateAudio` proceeds with the empty result. -/
theorem styleSlice_overrun_returns_value :
    (List.replicate 256 (1 : ℚ)).length < 1 * 256 + 256 ∧
    styleSlice (List.replicate 256 (1 : ℚ)) 1 = [] := by
  constructor
  · rw [List.length_replicate]
    omega
  · rw [styleSlice, STYLE_DIM, List.drop_replicate]
    rfl

/-- C8 amended: whenever the computed offset plus 256 exceeds the blob
length, the lookup silently clamps — it returns the (possibly empty) tail
of the blob from the offset on, of length `blobLength - offset`, and no
error is raised. -/
theorem styleSlice_overrun_clamps (voiceData : List ℚ) (t : Nat)
    (h : voiceData.length < t * 256 + 256) :
    styleSlice voiceData t = voiceData.drop (t * 256) ∧
    (styleSlice voiceData t).length = voiceData.length - t * 256 := by
  have hlen : (voiceData.drop (t * 256)).length ≤ 256 := by
    rw [List.length_drop]
    omega
  constructor
  · exact List.take_of_length_le hlen
  · rw [styleSlice, STYLE_DIM, List.take_of_length_le hlen, List.length_drop]

/-- Witness for the amended C8: a 300-float blob sliced at token count 1
yields the 44 floats from position 256 on. -/
theorem styleSlice_overrun_clamps_witness :
    (List.replicate 300 (1 : ℚ)).length < 1 * 256 + 256 ∧
    (styleSlice (List.replicate 300 (1 : ℚ)) 1
        = (List.replicate 300 (1 : ℚ)).drop (1 * 256) ∧
      (styleSlice (List.replicate 300 (1 : ℚ)) 1).length
        = (List.replicate 300 (1 : ℚ)).length - 1 * 256) :=
  ⟨by rw [List.length_replicate]; omega,
   styleSlice_overrun_clamps (List.replicate 300 (1 : ℚ)) 1
     (by rw [List.length_replicate]; omega)⟩

set_option maxRecDepth 4096

/-- Counterexample to C9: 510 mapped characters produce a 512-token
sequence, and `generateAudio` hands the tensor constructor the shape
`[1, 512]` — more than 511 elements, with no cap applied. -/
theorem input_ids_over_511 :
    inputIdsShape (List.replicate 510 'a') = [1, 512] ∧ ¬(512 ≤ 511) := by
  constructor
  · rfl
  · omega

/-- C9 amended: the token-id tensor always has exactly
`2 + (number of mapped symbols)` elements — the full tokenizer output with
both sentinels and no truncation — which exceeds 511 whenever more than 509
symbols are mapped (e.g. 510 mapped characters give 512 elements). -/
theorem input_ids_shape_uncapped :
    (∀ text : List Char,
      inputIdsShape text
        = [1, 2 + ((text.map Char.toLower).filterMap VOCAB).length]) ∧
    inputIdsShape (List.replicate 510 'a') = [1, 512] := by
  refine ⟨fun text => ?_, rfl⟩
  rw [inputIdsShape, tokenize_closed_form]
  simp
  omega

/-- Counterexample to C10: an inference response whose `waveform` output is
present with an *empty* data payload passes the validation gate (an empty
array is truthy in JS), and WAV encoding proceeds, producing a 44-byte
header-only audio file instead of aborting. -/
theorem empty_waveform_not_rejected :
    extractWaveform (some [("waveform", TensorOutput.mk (some []))]) = .ok [] ∧
    _floatArrayToWav [] SAMPLE_RATE =
      [82, 73, 70, 70, 36, 0, 0, 0, 87, 65, 86, 69, 102, 109, 116, 32,
       16, 0, 0, 0, 1, 0, 1, 0, 192, 93, 0, 0, 128, 187, 0, 0,
       2, 0, 16, 0, 100, 97, 116, 97, 0, 0, 0, 0] := by
  constructor
  · rfl
  · decide

/-- C10 amended: if the engine response is absent, lacks the `waveform`
output, or that output's data payload is null, `generateAudio` raises an
error before any WAV encoding; an empty-but-present data payload is not
rejected. -/
theorem inference_output_validation :
    extractWaveform none = .error "Invalid output from model inference" ∧
    (∀ outs, lookupOutput outs "waveform" = none →
      extractWaveform (some outs) = .error "Invalid output from model inference") ∧
    (∀ outs t, lookupOutput outs "waveform" = some t → t.data = none →
      extractWaveform (some outs) = .error "Invalid output from model inference") := by
  refine ⟨rfl, fun outs h => ?_, fun outs t h hd => ?_⟩
  · rw [extractWaveform, h]
  · rw [extractWaveform, h]
    dsimp only
    rw [hd]

/-- Witness for the amended C10: a response with a `waveform` output whose
data payload is null is rejected with the inference error. -/
theorem inference_output_validation_witness :
    lookupOutput [("waveform", TensorOutput.mk none)] "waveform"
      = some (TensorOutput.mk none) ∧
    extractWaveform (some [("waveform", TensorOutput.mk none)])
      = .error "Invalid output from model inference" :=
  ⟨by rfl,
   inference_output_validation.2.2 [("waveform", TensorOutput.mk none)]
     (TensorOutput.mk none) (by rfl) rfl⟩

/-- C1: for every sample list and every sample rate (whose derived u32
fields fit in 32 bits, as `setUint32` stores them), the encoder output is a
44-byte little-endian header — "RIFF", chunkSize = 36 + dataLength, "WAVE",
"fmt ", 16, PCM format 1, 1 channel, the sample rate, byteRate =
sampleRate * 2, blockAlign 2, bitsPerSample 16, "data", dataLength =
numSamples * 2 — at the stated byte offsets, followed by the 16-bit PCM
samples in order, little-endian. -/
theorem wav_header_layout (floatArray : List ℚ) (sampleRate : Nat)
    (hr : sampleRate * 2 < 4294967296)
    (hn : 36 + floatArray.length * 2 < 4294967296) :
    (_floatArrayToWav floatArray sampleRate).length = 44 + 2 * floatArray.length ∧
    (_floatArrayToWav floatArray sampleRate).take 4 = [82, 73, 70, 70] ∧
    wavField (_floatArrayToWav floatArray sampleRate) 4 4
      = 36 + floatArray.length * 2 ∧
    ((_floatArrayToWav floatArray sampleRate).drop 8).take 4 = [87, 65, 86, 69] ∧
    ((_floatArrayToWav floatArray sampleRate).drop 12).take 4 = [102, 109, 116, 32] ∧
    wavField (_floatArrayToWav floatArray sampleRate) 16 4 = 16 ∧
    wavField (_floatArrayToWav floatArray sampleRate) 20 2 = 1 ∧
    wavField (_floatArrayToWav floatArray sampleRate) 22 2 = 1 ∧
    wavField (_floatArrayToWav floatArray sampleRate) 24 4 = sampleRate ∧
    wavField (_floatArrayToWav floatArray sampleRate) 28 4 = sampleRate * 2 ∧
    wavField (_floatArrayToWav floatArray sampleRate) 32 2 = 2 ∧
    wavField (_floatArrayToWav floatArray sampleRate) 34 2 = 16 ∧
    ((_floatArrayToWav floatArray sampleRate).drop 36).take 4 = [100, 97, 116, 97] ∧
    wavField (_floatArrayToWav floatArray sampleRate) 40 4 = floatArray.length * 2 ∧
    (_floatArrayToWav floatArray sampleRate).drop 44
      = (floatArray.map pcmOfSample).flatMap int16le := by
  rw [wav_normal_form]
  refine ⟨?_, rfl, ?_, rfl, rfl, ?_, rfl, rfl, ?_, ?_, rfl, rfl, rfl, ?_, rfl⟩
  · simp only [List.length_cons, length_flatMap_int16le, List.length_map]
    omega
  · simp only [wavField, leNat]
    norm_num
    omega
  · rfl
  · simp only [wavField, leNat]
    norm_num
    omega
  · simp only [wavField, leNat]
    norm_num
    omega
  · simp only [wavField, leNat]
    norm_num
    omega

/-- Witness for C1 (the claim's particular case): encoding the empty sample
list at rate 24000 gives a 44-byte output whose chunkSize field is 36 and
whose dataLength field is 0. -/
theorem wav_header_layout_witness :
    24000 * 2 < 4294967296 ∧ 36 + ([] : List ℚ).length * 2 < 4294967296 ∧
    ((_floatArrayToWav [] 24000).length = 44 + 2 * ([] : List ℚ).length ∧
      wavField (_floatArrayToWav [] 24000) 4 4 = 36 + ([] : List ℚ).length * 2 ∧
      wavField (_floatArrayToWav [] 24000) 40 4 = ([] : List ℚ).length * 2) :=
  ⟨by omega, by norm_num,
   (wav_header_layout [] 24000 (by omega) (by norm_num)).1,
   (wav_header_layout [] 24000 (by omega) (by norm_num)).2.2.1,
   (wav_header_layout [] 24000 (by omega) (by norm_num)).2.2.2.2.2.2.2.2.2.2.2.2.2.1⟩

/-- Counterexample to C3: for the waveform [0.5, -1.0, 1.0, 0.0] the claimed
PCM payload [16384, -32768, 32767, 0] is wrong — the encoder computes
floor(0.5 * 32767) = 16383 and clamp(floor(-32767)) = -32767, so the bytes
after the header differ from the claimed 16384 and -32768 encodings. -/
theorem wav_scenario_claimed_bytes_false :
    (_floatArrayToWav [1/2, -1, 1, 0] 24000).drop 44
      ≠ int16le 16384 ++ int16le (-32768) ++ int16le 32767 ++ int16le 0 := by
  intro h
  have hw : _floatArrayToWav [1/2, -1, 1, 0] 24000 =
      [82, 73, 70, 70, 44, 0, 0, 0, 87, 65, 86, 69, 102, 109, 116, 32,
       16, 0, 0, 0, 1, 0, 1, 0, 192, 93, 0, 0, 128, 187, 0, 0,
       2, 0, 16, 0, 100, 97, 116, 97, 8, 0, 0, 0,
       255, 63, 1, 128, 255, 127, 0, 0] := by
    norm_num [_floatArrayToWav, pcmOfSample, u16le, u32le, int16le]
    decide
  rw [hw] at h
  exact absurd h (by decide)

/-- C3 amended: encoding [0.5, -1.0, 1.0, 0.0] at 24000 Hz yields exactly
the 44-byte header followed by the PCM values [16383, -32767, 32767, 0]
little-endian (0.5 floors to 16383, and -1.0 scales to -32767, inside the
clamp bounds). -/
theorem wav_scenario_actual_bytes :
    _floatArrayToWav [1/2, -1, 1, 0] 24000 =
      [82, 73, 70, 70, 44, 0, 0, 0, 87, 65, 86, 69, 102, 109, 116, 32,
       16, 0, 0, 0, 1, 0, 1, 0, 192, 93, 0, 0, 128, 187, 0, 0,
       2, 0, 16, 0, 100, 97, 116, 97, 8, 0, 0, 0,
       255, 63, 1, 128, 255, 127, 0, 0] ∧
    [255, 63, 1, 128, 255, 127, 0, 0]
      = int16le 16383 ++ int16le (-32767) ++ int16le 32767 ++ int16le 0 := by
  constructor
  · norm_num [_floatArrayToWav, pcmOfSample, u16le, u32le, int16le]
    decide
  · decide
